import Mathlib

/-!
Verification of the drift-detection core of the `dep_ai` repository
(`src/app/drift_detect.py` and the aggregate evaluator
`log_drift_to_insights` in `src/app/main.py`) against its
natural-language specification.

The embedding is shallow:
* a CSV column is a list of cells, a cell is `Option ℚ` (`none` models a
  missing value, NaN), and a loaded dataset is an association list from
  column name to column;
* the two files read by `detect_drift` are modelled as `Option Dataset`
  (`none` means the path does not resolve, i.e. `FileNotFoundError`);
* the scipy call `ks_2samp` is an external library call, so the main
  model is parameterised by an arbitrary comparator
  `ks : List ℚ → List ℚ → ℚ × ℚ` returning `(statistic, p_value)`;
  the statistic and the asymptotic p-value themselves are modelled
  separately, from the specification, for the identity property;
* scipy raises `ValueError` when a sample is empty after `dropna`, and
  the `open`/`json.dump` persistence step can raise an I/O error; both
  are modelled as error outcomes of an `Except`;
* Python exceptions abort the function, so `detect_drift` returns
  `Except DriftError (List (String × FeatureResult))`: the results list
  is produced only when no exception escapes.
-/

/-- A cell of a loaded CSV column; `none` models a missing value (NaN). -/
abbrev Cell := Option ℚ

/-- A loaded CSV column: the cells in row order. -/
abbrev Column := List Cell

/-- A loaded dataset: association list from column name to column,
in header order (the pandas `DataFrame`, restricted to what the code
uses). -/
abbrev Dataset := List (String × Column)

/-- Model of `series.dropna()`: keep the present values, in order. -/
def dropna (c : Column) : List ℚ := c.filterMap id

/-- Model of `col in prod.columns` and `prod[col]`: the first column of
the given name, if any. -/
def lookupCol : Dataset → String → Option Column
  | [], _ => none
  | (n, c) :: rest, name => if n = name then some c else lookupCol rest name

/-- One entry of the results dict built by `detect_drift`
(`src/app/drift_detect.py`, lines 38 to 43). -/
structure FeatureResult where
  p_value : ℚ
  statistic : ℚ
  drift_detected : Bool
  type : String
deriving DecidableEq, Repr

/-- The exceptions that can escape `detect_drift`: `FileNotFoundError`
from `pd.read_csv`, `ValueError` from `ks_2samp` on an empty sample,
and an I/O error from writing the JSON report. -/
inductive DriftError where
  | inputNotFound
  | numericError
  | writeFailure
deriving DecidableEq, Repr

/-- The dict literal of lines 39 to 43: `drift_detected` is computed
once, from the p-value and the threshold in force; `type` is the
constant string `"numerical"`. -/
def mkResult (p stat threshold : ℚ) : FeatureResult :=
  { p_value := p
    statistic := stat
    drift_detected := decide (p < threshold)
    type := "numerical" }

/-- The `for col in ref.columns` loop of lines 35 to 43: keep the
columns other than `"Exited"` that also occur in the production
dataset, run the comparator on the two samples after `dropna`, and
record a `FeatureResult`. scipy `ks_2samp` raises `ValueError` when
either sample is empty, which aborts the whole loop. -/
def compareColumns (ks : List ℚ → List ℚ → ℚ × ℚ) (prodD : Dataset)
    (threshold : ℚ) :
    List (String × Column) → Except DriftError (List (String × FeatureResult))
  | [] => .ok []
  | (name, col) :: rest =>
    match lookupCol prodD name with
    | none => compareColumns ks prodD threshold rest
    | some pcol =>
      if name = "Exited" then
        compareColumns ks prodD threshold rest
      else
        let r := dropna col
        let p := dropna pcol
        if r = [] ∨ p = [] then
          .error .numericError
        else
          let sp := ks r p
          (compareColumns ks prodD threshold rest).map
            (fun rs => (name, mkResult sp.2 sp.1 threshold) :: rs)

/-- Model of `detect_drift` (`src/app/drift_detect.py`): read the two
files (`FileNotFoundError` when a path does not resolve, the reference
file is read first), run the comparison loop, then write the JSON
report and return the results. `writeOk = false` models the
`open`/`json.dump` step raising: the exception escapes before
`return results` is reached. -/
def detect_drift (ks : List ℚ → List ℚ → ℚ × ℚ)
    (refFile prodFile : Option Dataset) (threshold : ℚ) (writeOk : Bool) :
    Except DriftError (List (String × FeatureResult)) :=
  match refFile with
  | none => .error .inputNotFound
  | some refD =>
    match prodFile with
    | none => .error .inputNotFound
    | some prodD =>
      match compareColumns ks prodD threshold refD with
      | .error e => .error e
      | .ok results => if writeOk then .ok results else .error .writeFailure

/-- The Python builtin `round` on an exact value: nearest integer,
ties to even. -/
def roundHalfEven (x : ℚ) : ℤ :=
  let f := ⌊x⌋
  let r := x - f
  if r < 1 / 2 then f
  else if 1 / 2 < r then f + 1
  else if f % 2 = 0 then f else f + 1

/-- Model of `round(x, 2)` on an exact value. -/
def roundTo2 (x : ℚ) : ℚ := (roundHalfEven (x * 100) : ℚ) / 100

/-- Model of `drifted = sum(1 for r in drift_results.values() if
r.get("drift_detected"))` in `log_drift_to_insights`
(`src/app/main.py`). -/
def driftedCount (rs : List (String × FeatureResult)) : ℕ :=
  (rs.filter (fun r => r.2.drift_detected)).length

/-- Model of `percentage = round((drifted / total) * 100, 2) if total
else 0` in `log_drift_to_insights` (`src/app/main.py`, line 223). -/
def drift_percentage (rs : List (String × FeatureResult)) : ℚ :=
  if rs.length = 0 then 0
  else roundTo2 ((driftedCount rs : ℚ) / (rs.length : ℚ) * 100)

/-- Model of `risk = "LOW" if percentage < 20 else "MEDIUM" if
percentage < 50 else "HIGH"` in `log_drift_to_insights`
(`src/app/main.py`, line 225). -/
def risk_level (p : ℚ) : String :=
  if p < 20 then "LOW" else if p < 50 then "MEDIUM" else "HIGH"

/-- The feature names flagged as drifted in a `detect_drift` outcome;
an aborted invocation flags nothing. -/
def flaggedFeatures (e : Except DriftError (List (String × FeatureResult))) :
    List String :=
  match e with
  | .ok rs => (rs.filter (fun r => r.2.drift_detected)).map (fun r => r.1)
  | .error _ => []

/-- Did the computation succeed? -/
def isOk : Except DriftError (List (String × FeatureResult)) → Bool
  | .ok _ => true
  | .error _ => false

/-- Proof device: the threshold-independent part of the comparison
loop, recording for each retained column its name and the pair
`(statistic, p_value)`. -/
def columnPV (ks : List ℚ → List ℚ → ℚ × ℚ) (prodD : Dataset) :
    List (String × Column) → Except DriftError (List (String × ℚ × ℚ))
  | [] => .ok []
  | (name, col) :: rest =>
    match lookupCol prodD name with
    | none => columnPV ks prodD rest
    | some pcol =>
      if name = "Exited" then columnPV ks prodD rest
      else
        if dropna col = [] ∨ dropna pcol = [] then .error .numericError
        else (columnPV ks prodD rest).map
          (fun rs => (name, ks (dropna col) (dropna pcol)) :: rs)

/-- A reference column that the loop will hand to `ks_2samp` with an
empty sample on at least one side: it is not the excluded label, it
occurs in the production dataset, and after missing-value removal the
reference or the production sample is empty. -/
def degenerateColumn (prodD : Dataset) (x : String × Column) : Prop :=
  x.1 ≠ "Exited" ∧ lookupCol prodD x.1 ≠ none ∧
    (dropna x.2 = [] ∨ dropna ((lookupCol prodD x.1).getD []) = [])

instance (prodD : Dataset) (x : String × Column) :
    Decidable (degenerateColumn prodD x) := by
  unfold degenerateColumn
  infer_instance

/-- Modelled from the spec (§4.2): the empirical CDF of a sample at a
point, the fraction of sample values at or below the point. -/
def ecdf (xs : List ℚ) (x : ℚ) : ℚ :=
  ((xs.countP (fun v => decide (v ≤ x))) : ℚ) / (xs.length : ℚ)

/-- Modelled from the spec (§4.2): the two-sample Kolmogorov–Smirnov
statistic, the maximum vertical gap between the two empirical CDFs;
the sup over all reals is attained at the merged sample points. This
stands in for the scipy `ks_2samp` statistic, which is not code of
this repository. -/
def ksStatistic (xs ys : List ℚ) : ℚ :=
  ((xs ++ ys).map (fun x => |ecdf xs x - ecdf ys x|)).foldr max 0

/-- Modelled from the spec (§4.2): the survival function of the
Kolmogorov distribution, `2 Σ (-1)^k e^(-2 (k+1)² x²)` for `x > 0` and
`1` at and below `0` (the Kolmogorov statistic is almost surely
positive, so its CDF vanishes at `0`). -/
noncomputable def kolmogorovSF (x : ℝ) : ℝ :=
  if x ≤ 0 then 1
  else 2 * tsum (fun k : ℕ => (-1 : ℝ) ^ k * Real.exp (-2 * ((k : ℝ) + 1) ^ 2 * x ^ 2))

/-- Modelled from the spec (§4.2): the two-sided asymptotic p-value of
the two-sample test, the Kolmogorov survival function at
`sqrt(n_eff) · D` with effective sample size `n_eff = n1·n2/(n1+n2)`.
This stands in for the scipy `ks_2samp` p-value, which is not code of
this repository. -/
noncomputable def pValueAsymp (d : ℚ) (n1 n2 : ℕ) : ℝ :=
  kolmogorovSF (Real.sqrt ((n1 : ℝ) * (n2 : ℝ) / ((n1 : ℝ) + (n2 : ℝ))) * (d : ℝ))

/-- A comparator stub for concrete runs: statistic `0`, p-value `1`. -/
def constKS : List ℚ → List ℚ → ℚ × ℚ := fun _ _ => (0, 1)

/-- A comparator stub for concrete runs: statistic `1`, p-value `0`. -/
def lowKS : List ℚ → List ℚ → ℚ × ℚ := fun _ _ => (1, 0)

/-- A concrete reference dataset with one feature column and the
excluded label column. -/
def refW : Dataset := [("a", [some 1]), ("Exited", [some 0])]

/-- A concrete production dataset sharing the feature column `"a"`. -/
def prodW : Dataset := [("a", [some 2])]

/-- A concrete reference dataset with two feature columns. -/
def ref3 : Dataset := [("a", [some 1]), ("b", [some 1])]

/-- A concrete production dataset whose column `"b"` is entirely
missing, so its sample is empty after missing-value removal. -/
def prod3 : Dataset := [("a", [some 2]), ("b", [none])]

/- ------------------------------------------------------------------
Helper lemmas
------------------------------------------------------------------ -/

lemma foldr_max_zero (l : List ℚ) (h : ∀ a ∈ l, a = 0) : l.foldr max 0 = 0 := by
  induction l with
  | nil => rfl
  | cons a t ih =>
    have ha : a = 0 := h a (List.mem_cons_self a t)
    have ht : t.foldr max 0 = 0 := ih (fun b hb => h b (List.mem_cons_of_mem a hb))
    simp [List.foldr, ha, ht]

lemma ksStatistic_self (xs : List ℚ) : ksStatistic xs xs = 0 := by
  unfold ksStatistic
  apply foldr_max_zero
  intro a ha
  simp only [List.mem_map] at ha
  obtain ⟨x, _, rfl⟩ := ha
  simp

lemma pValueAsymp_zero (n1 n2 : ℕ) : pValueAsymp 0 n1 n2 = 1 := by
  unfold pValueAsymp kolmogorovSF
  norm_num

lemma compareColumns_mem (ks : List ℚ → List ℚ → ℚ × ℚ) (prodD : Dataset)
    (t : ℚ) (cols : List (String × Column)) (rs : List (String × FeatureResult))
    (nm : String) (r : FeatureResult)
    (hok : compareColumns ks prodD t cols = .ok rs) (hm : (nm, r) ∈ rs) :
    ∃ p s, r = mkResult p s t := by
  induction cols generalizing rs with
  | nil =>
    simp only [compareColumns] at hok
    cases hok
    simp at hm
  | cons hd rest ih =>
    obtain ⟨name, col⟩ := hd
    cases hl : lookupCol prodD name with
    | none =>
      simp only [compareColumns, hl] at hok
      exact ih rs hok hm
    | some pcol =>
      by_cases he : name = "Exited"
      · simp only [compareColumns, hl, if_pos he] at hok
        exact ih rs hok hm
      · by_cases hemp : dropna col = [] ∨ dropna pcol = []
        · simp only [compareColumns, hl, if_neg he, if_pos hemp] at hok
          cases hok
        · cases hrest : compareColumns ks prodD t rest with
          | error e =>
            simp only [compareColumns, hl, if_neg he, if_neg hemp, hrest,
              Except.map] at hok
            cases hok
          | ok rs2 =>
            simp only [compareColumns, hl, if_neg he, if_neg hemp, hrest,
              Except.map, Except.ok.injEq] at hok
            subst hok
            rw [List.mem_cons] at hm
            rcases hm with hm | hm
            · exact ⟨_, _, (Prod.ext_iff.mp hm).2⟩
            · exact ih rs2 hrest hm

lemma compareColumns_eq_columnPV (ks : List ℚ → List ℚ → ℚ × ℚ)
    (prodD : Dataset) (t : ℚ) (cols : List (String × Column)) :
    compareColumns ks prodD t cols =
      (columnPV ks prodD cols).map
        (List.map (fun x => (x.1, mkResult x.2.2 x.2.1 t))) := by
  induction cols with
  | nil => rfl
  | cons hd rest ih =>
    obtain ⟨name, col⟩ := hd
    cases hl : lookupCol prodD name with
    | none => simp only [compareColumns, columnPV, hl]; exact ih
    | some pcol =>
      by_cases he : name = "Exited"
      · simp only [compareColumns, columnPV, hl, if_pos he]; exact ih
      · by_cases hemp : dropna col = [] ∨ dropna pcol = []
        · simp only [compareColumns, columnPV, hl, if_neg he, if_pos hemp]
          rfl
        · simp only [compareColumns, columnPV, hl, if_neg he, if_neg hemp, ih]
          cases columnPV ks prodD rest with
          | error e => rfl
          | ok l => rfl

lemma lookupCol_eq_none_iff (d : Dataset) (name : String) :
    lookupCol d name = none ↔ name ∉ d.map Prod.fst := by
  induction d with
  | nil => simp [lookupCol]
  | cons hd rest ih =>
    obtain ⟨n, c⟩ := hd
    by_cases hn : n = name
    · subst hn
      simp [lookupCol]
    · simp [lookupCol, hn, ih, Ne.symm hn]

lemma compareColumns_names (ks : List ℚ → List ℚ → ℚ × ℚ) (prodD : Dataset)
    (t : ℚ) (cols : List (String × Column)) (rs : List (String × FeatureResult))
    (name : String)
    (hok : compareColumns ks prodD t cols = .ok rs) :
    name ∈ rs.map Prod.fst ↔
      (name ∈ cols.map Prod.fst ∧ lookupCol prodD name ≠ none ∧
        name ≠ "Exited") := by
  induction cols generalizing rs with
  | nil =>
    simp only [compareColumns] at hok
    cases hok
    simp
  | cons hd rest ih =>
    obtain ⟨n, c⟩ := hd
    cases hl : lookupCol prodD n with
    | none =>
      simp only [compareColumns, hl] at hok
      rw [ih rs hok]
      by_cases hn : name = n
      · subst hn
        simp [hl]
      · simp [hn]
    | some pcol =>
      by_cases he : n = "Exited"
      · simp only [compareColumns, hl, if_pos he] at hok
        rw [ih rs hok]
        by_cases hn : name = n
        · subst hn
          simp [he]
        · simp [hn]
      · by_cases hemp : dropna c = [] ∨ dropna pcol = []
        · simp only [compareColumns, hl, if_neg he, if_pos hemp] at hok
          cases hok
        · cases hrest : compareColumns ks prodD t rest with
          | error e =>
            simp only [compareColumns, hl, if_neg he, if_neg hemp, hrest,
              Except.map] at hok
            cases hok
          | ok rs2 =>
            simp only [compareColumns, hl, if_neg he, if_neg hemp, hrest,
              Except.map, Except.ok.injEq] at hok
            subst hok
            by_cases hn : name = n
            · subst hn
              simp [hl, he]
            · simp only [List.map_cons, List.mem_cons, hn, false_or]
              rw [ih rs2 hrest]

lemma compareColumns_degenerate (ks : List ℚ → List ℚ → ℚ × ℚ)
    (prodD : Dataset) (t : ℚ) (cols : List (String × Column))
    (h : ∃ x ∈ cols, degenerateColumn prodD x) :
    compareColumns ks prodD t cols = .error .numericError := by
  induction cols with
  | nil => simp at h
  | cons hd rest ih =>
    obtain ⟨name, col⟩ := hd
    obtain ⟨x, hx, hdeg⟩ := h
    cases hl : lookupCol prodD name with
    | none =>
      simp only [compareColumns, hl]
      rcases List.mem_cons.mp hx with rfl | hx2
      · exact absurd hl hdeg.2.1
      · exact ih ⟨x, hx2, hdeg⟩
    | some pcol =>
      by_cases he : name = "Exited"
      · simp only [compareColumns, hl, if_pos he]
        rcases List.mem_cons.mp hx with rfl | hx2
        · exact absurd he hdeg.1
        · exact ih ⟨x, hx2, hdeg⟩
      · by_cases hemp : dropna col = [] ∨ dropna pcol = []
        · simp only [compareColumns, hl, if_neg he, if_pos hemp]
        · simp only [compareColumns, hl, if_neg he, if_neg hemp]
          rcases List.mem_cons.mp hx with rfl | hx2
          · obtain ⟨-, -, hd3⟩ := hdeg
            simp only [hl, Option.getD_some] at hd3
            exact absurd hd3 hemp
          · rw [ih ⟨x, hx2, hdeg⟩]
            rfl

lemma detect_drift_ok_elim (ks : List ℚ → List ℚ → ℚ × ℚ)
    (refFile prodFile : Option Dataset) (t : ℚ) (w : Bool)
    (rs : List (String × FeatureResult))
    (hok : detect_drift ks refFile prodFile t w = .ok rs) :
    ∃ refD prodD, refFile = some refD ∧ prodFile = some prodD ∧
      compareColumns ks prodD t refD = .ok rs ∧ w = true := by
  cases refFile with
  | none => simp [detect_drift] at hok
  | some refD =>
    cases prodFile with
    | none => simp [detect_drift] at hok
    | some prodD =>
      refine ⟨refD, prodD, rfl, rfl, ?_⟩
      simp only [detect_drift] at hok
      cases hcc : compareColumns ks prodD t refD with
      | error e => rw [hcc] at hok; cases hok
      | ok rs2 =>
        rw [hcc] at hok
        cases w with
        | false => simp at hok
        | true =>
          simp only [if_true] at hok
          cases hok
          exact ⟨rfl, rfl⟩

lemma flagged_iff (ks : List ℚ → List ℚ → ℚ × ℚ) (refD prodD : Dataset)
    (t : ℚ) (w : Bool) (name : String) :
    name ∈ flaggedFeatures (detect_drift ks (some refD) (some prodD) t w) ↔
      (w = true ∧ ∃ l, columnPV ks prodD refD = .ok l ∧
        ∃ x ∈ l, x.1 = name ∧ x.2.2 < t) := by
  simp only [detect_drift, compareColumns_eq_columnPV]
  cases hcp : columnPV ks prodD refD with
  | error e =>
    simp [flaggedFeatures, Except.map]
  | ok l =>
    cases w with
    | false => simp [flaggedFeatures, Except.map]
    | true =>
      simp only [Except.map, flaggedFeatures, if_true, true_and,
        Except.ok.injEq, List.mem_map, List.mem_filter]
      constructor
      · rintro ⟨y, ⟨hy, hflag⟩, rfl⟩
        obtain ⟨x, hx, rfl⟩ := hy
        refine ⟨l, rfl, x, hx, rfl, ?_⟩
        simpa [mkResult] using hflag
      · rintro ⟨l2, hl2, x, hx, hnm, hlt⟩
        subst hl2
        refine ⟨(x.1, mkResult x.2.2 x.2.1 t), ⟨⟨x, hx, rfl⟩, ?_⟩, hnm⟩
        simpa [mkResult] using hlt

/- ------------------------------------------------------------------
Claim theorems
------------------------------------------------------------------ -/

/-- C1: for every feature that appears in the results of a successful
drift check with threshold `t`, its `drift_detected` flag equals
`p_value < t`: the flag is fixed at result creation from the threshold
in force and the p-value, and from nothing else. -/
theorem detect_drift_flag_eq_pvalue_lt_threshold
    (ks : List ℚ → List ℚ → ℚ × ℚ) (refFile prodFile : Option Dataset)
    (t : ℚ) (w : Bool) (rs : List (String × FeatureResult))
    (nm : String) (r : FeatureResult)
    (hok : detect_drift ks refFile prodFile t w = .ok rs)
    (hm : (nm, r) ∈ rs) :
    r.drift_detected = decide (r.p_value < t) := by
  obtain ⟨refD, prodD, -, -, hcc, -⟩ :=
    detect_drift_ok_elim ks refFile prodFile t w rs hok
  obtain ⟨p, s, rfl⟩ := compareColumns_mem ks prodD t refD rs nm r hcc hm
  rfl

/-- Witness for C1 at a concrete one-feature run. -/
theorem detect_drift_flag_witness :
    (detect_drift constKS (some refW) (some prodW) (1/20) true
      = .ok [("a", mkResult 1 0 (1/20))])
    ∧ (mkResult 1 0 (1/20)).drift_detected
      = decide ((mkResult 1 0 (1/20)).p_value < (1/20 : ℚ)) :=
  ⟨rfl, detect_drift_flag_eq_pvalue_lt_threshold constKS (some refW) (some prodW)
    (1/20) true [("a", mkResult 1 0 (1/20))] "a" (mkResult 1 0 (1/20)) rfl
    (List.mem_singleton.mpr rfl)⟩

/-- C2: the aggregate evaluator computes
`drift_percentage = round(drifted_count / total_features * 100, 2)`,
with value `0` when there are no features, and assigns risk LOW below
20, MEDIUM from 20 up to (not including) 50, HIGH from 50; in
particular 19.99 maps to LOW, 20.0 to MEDIUM, 49.99 to MEDIUM and 50.0
to HIGH. -/
theorem log_drift_aggregate_spec (rs : List (String × FeatureResult))
    (h : rs.length ≠ 0) :
    drift_percentage rs = roundTo2 ((driftedCount rs : ℚ) / (rs.length : ℚ) * 100)
    ∧ (∀ rs0 : List (String × FeatureResult), rs0.length = 0 →
        drift_percentage rs0 = 0)
    ∧ (∀ q : ℚ, q < 20 → risk_level q = "LOW")
    ∧ (∀ q : ℚ, 20 ≤ q → q < 50 → risk_level q = "MEDIUM")
    ∧ (∀ q : ℚ, 50 ≤ q → risk_level q = "HIGH")
    ∧ risk_level (1999/100) = "LOW" ∧ risk_level 20 = "MEDIUM"
    ∧ risk_level (4999/100) = "MEDIUM" ∧ risk_level 50 = "HIGH" := by
  refine ⟨?_, ?_, ?_, ?_, ?_, ?_, ?_, ?_, ?_⟩
  · rw [drift_percentage, if_neg h]
  · intro rs0 h0
    rw [drift_percentage, if_pos h0]
  · intro q hq
    rw [risk_level, if_pos hq]
  · intro q h20 h50
    rw [risk_level, if_neg (not_lt.mpr h20), if_pos h50]
  · intro q h50
    rw [risk_level, if_neg (not_lt.mpr (by linarith)), if_neg (not_lt.mpr h50)]
  · norm_num [risk_level]
  · norm_num [risk_level]
  · norm_num [risk_level]
  · norm_num [risk_level]

/-- Witness for C2 at a concrete one-feature results list. -/
theorem log_drift_aggregate_spec_witness :
    (([("a", mkResult 0 0 (1/20))] : List (String × FeatureResult)).length ≠ 0)
    ∧ (drift_percentage [("a", mkResult 0 0 (1/20))]
        = roundTo2 ((driftedCount [("a", mkResult 0 0 (1/20))] : ℚ)
            / (([("a", mkResult 0 0 (1/20))] : List (String × FeatureResult)).length : ℚ) * 100)
      ∧ (∀ rs0 : List (String × FeatureResult), rs0.length = 0 →
          drift_percentage rs0 = 0)
      ∧ (∀ q : ℚ, q < 20 → risk_level q = "LOW")
      ∧ (∀ q : ℚ, 20 ≤ q → q < 50 → risk_level q = "MEDIUM")
      ∧ (∀ q : ℚ, 50 ≤ q → risk_level q = "HIGH")
      ∧ risk_level (1999/100) = "LOW" ∧ risk_level 20 = "MEDIUM"
      ∧ risk_level (4999/100) = "MEDIUM" ∧ risk_level 50 = "HIGH") :=
  ⟨by decide, log_drift_aggregate_spec [("a", mkResult 0 0 (1/20))] (by decide)⟩

/-- Counterexample to C3 as stated: with feature `"b"` entirely missing
in production, the whole invocation aborts with the numeric error and
no results at all are produced, so the comparison of the remaining
feature `"a"` is not returned either. -/
theorem degenerate_sample_aborts_batch_cex :
    detect_drift constKS (some ref3) (some prod3) (1/20) true
      = .error .numericError ∧
    isOk (detect_drift constKS (some ref3) (some prod3) (1/20) true) = false :=
  ⟨rfl, rfl⟩

/-- C3 amended: whenever some retained feature has an empty sample
after missing-value removal, the whole check aborts with the numeric
error (the scipy `ValueError` propagates) and no feature results are
returned, for every comparator, threshold and write outcome. -/
theorem degenerate_sample_aborts_batch (ks : List ℚ → List ℚ → ℚ × ℚ)
    (refD prodD : Dataset) (t : ℚ) (w : Bool)
    (h : ∃ x ∈ refD, degenerateColumn prodD x) :
    detect_drift ks (some refD) (some prodD) t w = .error .numericError := by
  simp only [detect_drift]
  rw [compareColumns_degenerate ks prodD t refD h]

/-- Witness for the amended C3 at a concrete two-feature run. -/
theorem degenerate_sample_aborts_batch_witness :
    (∃ x ∈ ref3, degenerateColumn prod3 x) ∧
    detect_drift constKS (some ref3) (some prod3) (1/10) false
      = .error .numericError :=
  ⟨by decide, degenerate_sample_aborts_batch constKS ref3 prod3 (1/10) false (by decide)⟩

/-- Counterexample to C4 as stated: with the per-feature results
computable, a failing report write makes `detect_drift` raise, so the
caller receives the write error and not the computed results. -/
theorem write_failure_discards_results_cex :
    detect_drift constKS (some refW) (some prodW) (1/20) false
      = .error .writeFailure ∧
    isOk (detect_drift constKS (some refW) (some prodW) (1/20) false) = false :=
  ⟨rfl, rfl⟩

/-- C4 amended: when the comparison loop succeeds but persisting the
report artifact fails, the exception propagates: the invocation ends
with the write error and the computed in-memory results are not
returned to the caller. -/
theorem write_failure_discards_results (ks : List ℚ → List ℚ → ℚ × ℚ)
    (refD prodD : Dataset) (t : ℚ)
    (h : isOk (compareColumns ks prodD t refD) = true) :
    detect_drift ks (some refD) (some prodD) t false = .error .writeFailure := by
  simp only [detect_drift]
  cases hcc : compareColumns ks prodD t refD with
  | error e => rw [hcc] at h; simp [isOk] at h
  | ok rs => simp

/-- Witness for the amended C4 at a concrete one-feature run. -/
theorem write_failure_discards_results_witness :
    (isOk (compareColumns constKS prodW (1/20) refW) = true) ∧
    detect_drift constKS (some refW) (some prodW) (1/20) false
      = .error .writeFailure :=
  ⟨rfl, write_failure_discards_results constKS refW prodW (1/20) rfl⟩

/-- C5: the set of feature names in the results of a successful check
is exactly the set of column names present in both datasets minus the
hardcoded excluded label column `"Exited"`. -/
theorem detect_drift_feature_set (ks : List ℚ → List ℚ → ℚ × ℚ)
    (refD prodD : Dataset) (t : ℚ) (w : Bool)
    (rs : List (String × FeatureResult)) (name : String)
    (hok : detect_drift ks (some refD) (some prodD) t w = .ok rs) :
    name ∈ rs.map Prod.fst ↔
      (name ∈ refD.map Prod.fst ∧ name ∈ prodD.map Prod.fst ∧
        name ≠ "Exited") := by
  obtain ⟨refD2, prodD2, h1, h2, hcc, -⟩ :=
    detect_drift_ok_elim ks (some refD) (some prodD) t w rs hok
  obtain rfl : refD = refD2 := Option.some.inj h1
  obtain rfl : prodD = prodD2 := Option.some.inj h2
  rw [compareColumns_names ks prodD t refD rs name hcc]
  rw [Ne, lookupCol_eq_none_iff, not_not]

/-- Witness for C5 at a concrete run: `"a"` is shared, the label
column is excluded. -/
theorem detect_drift_feature_set_witness :
    (detect_drift constKS (some refW) (some prodW) (1/20) true
      = .ok [("a", mkResult 1 0 (1/20))]) ∧
    (("a" ∈ ([("a", mkResult 1 0 (1/20))] : List (String × FeatureResult)).map Prod.fst) ↔
      ("a" ∈ refW.map Prod.fst ∧ "a" ∈ prodW.map Prod.fst ∧ "a" ≠ "Exited")) :=
  ⟨rfl, detect_drift_feature_set constKS refW prodW (1/20) true
    [("a", mkResult 1 0 (1/20))] "a" rfl⟩

/-- C6: when the production sample equals the reference sample, the
two-sample KS comparison yields statistic `0` and p-value `1` exactly,
hence the drift flag is `false` for every threshold below `1`. -/
theorem ks_identical_samples (xs : List ℚ) (_hne : xs ≠ []) (t : ℝ) (ht : t < 1) :
    ksStatistic xs xs = 0 ∧
    pValueAsymp (ksStatistic xs xs) xs.length xs.length = 1 ∧
    ¬ pValueAsymp (ksStatistic xs xs) xs.length xs.length < t ∧
    ∀ tq : ℚ, tq < 1 →
      (mkResult 1 (ksStatistic xs xs) tq).drift_detected = false := by
  have h0 : ksStatistic xs xs = 0 := ksStatistic_self xs
  have hp : pValueAsymp (ksStatistic xs xs) xs.length xs.length = 1 := by
    rw [h0]; exact pValueAsymp_zero _ _
  refine ⟨h0, hp, ?_, ?_⟩
  · rw [hp]; exact not_lt.mpr ht.le
  · intro tq htq
    simp only [mkResult]
    exact decide_eq_false (not_lt.mpr htq.le)

/-- Witness for C6 at a concrete one-point sample and threshold 1/2. -/
theorem ks_identical_samples_witness :
    (([(1 : ℚ)] : List ℚ) ≠ [] ∧ (1/2 : ℝ) < 1) ∧
    (ksStatistic [(1 : ℚ)] [(1 : ℚ)] = 0 ∧
      pValueAsymp (ksStatistic [(1 : ℚ)] [(1 : ℚ)])
        (List.length [(1 : ℚ)]) (List.length [(1 : ℚ)]) = 1 ∧
      ¬ pValueAsymp (ksStatistic [(1 : ℚ)] [(1 : ℚ)])
        (List.length [(1 : ℚ)]) (List.length [(1 : ℚ)]) < (1/2 : ℝ) ∧
      ∀ tq : ℚ, tq < 1 →
        (mkResult 1 (ksStatistic [(1 : ℚ)] [(1 : ℚ)]) tq).drift_detected = false) :=
  ⟨⟨by decide, by norm_num⟩,
    ks_identical_samples [(1 : ℚ)] (by decide) (1/2) (by norm_num)⟩

/-- C7: for thresholds `t1 < t2` on the same inputs, every feature
flagged drifted at `t1` is also flagged at `t2`. -/
theorem flagged_monotone_in_threshold (ks : List ℚ → List ℚ → ℚ × ℚ)
    (refFile prodFile : Option Dataset) (t1 t2 : ℚ) (w : Bool)
    (h : t1 < t2) (name : String)
    (hm : name ∈ flaggedFeatures (detect_drift ks refFile prodFile t1 w)) :
    name ∈ flaggedFeatures (detect_drift ks refFile prodFile t2 w) := by
  cases refFile with
  | none => simp [detect_drift, flaggedFeatures] at hm
  | some refD =>
    cases prodFile with
    | none => simp [detect_drift, flaggedFeatures] at hm
    | some prodD =>
      rw [flagged_iff] at hm
      rw [flagged_iff]
      obtain ⟨hw, l, hl, x, hx, hnm, hlt⟩ := hm
      exact ⟨hw, l, hl, x, hx, hnm, lt_trans hlt h⟩

/-- Witness for C7 at a concrete run with a flagged feature. -/
theorem flagged_monotone_in_threshold_witness :
    ((1 : ℚ) < 2 ∧
      "a" ∈ flaggedFeatures (detect_drift lowKS (some refW) (some prodW) 1 true)) ∧
    "a" ∈ flaggedFeatures (detect_drift lowKS (some refW) (some prodW) 2 true) := by
  have hmem : "a" ∈ flaggedFeatures
      (detect_drift lowKS (some refW) (some prodW) 1 true) := by
    rw [show flaggedFeatures
        (detect_drift lowKS (some refW) (some prodW) 1 true) = ["a"] from rfl]
    exact List.mem_singleton.mpr rfl
  exact ⟨⟨by norm_num, hmem⟩,
    flagged_monotone_in_threshold lowKS (some refW) (some prodW) 1 2
      true (by norm_num) "a" hmem⟩

/-- C8: on an empty results mapping the aggregate evaluator yields
percentage `0` and risk LOW, without dividing (the division branch is
guarded by the zero test) and without error. -/
theorem empty_results_aggregate_safe :
    drift_percentage [] = 0 ∧ risk_level (drift_percentage []) = "LOW" := by
  decide

/-- C9: when either dataset locator does not resolve, the whole check
fails with the input-not-found error and no results are produced. -/
theorem missing_input_aborts (ks : List ℚ → List ℚ → ℚ × ℚ)
    (prodFile : Option Dataset) (refD : Dataset) (t : ℚ) (w : Bool) :
    detect_drift ks none prodFile t w = .error .inputNotFound ∧
    detect_drift ks (some refD) none t w = .error .inputNotFound :=
  ⟨rfl, rfl⟩

/-- C10: every feature result carries the constant type string
`"numerical"`, whatever the column contained. -/
theorem result_type_numerical (ks : List ℚ → List ℚ → ℚ × ℚ)
    (refFile prodFile : Option Dataset) (t : ℚ) (w : Bool)
    (rs : List (String × FeatureResult)) (nm : String) (r : FeatureResult)
    (hok : detect_drift ks refFile prodFile t w = .ok rs)
    (hm : (nm, r) ∈ rs) :
    r.type = "numerical" := by
  obtain ⟨refD, prodD, -, -, hcc, -⟩ :=
    detect_drift_ok_elim ks refFile prodFile t w rs hok
  obtain ⟨p, s, rfl⟩ := compareColumns_mem ks prodD t refD rs nm r hcc hm
  rfl

/-- Witness for C10 at a concrete one-feature run. -/
theorem result_type_numerical_witness :
    (detect_drift lowKS (some refW) (some prodW) (1/20) true
      = .ok [("a", mkResult 0 1 (1/20))])
    ∧ (mkResult 0 1 (1/20)).type = "numerical" :=
  ⟨rfl, result_type_numerical lowKS (some refW) (some prodW) (1/20) true
    [("a", mkResult 0 1 (1/20))] "a" (mkResult 0 1 (1/20)) rfl
    (List.mem_singleton.mpr rfl)⟩
